import Mathlib

/-!
# NextGenCRM — Prospect Enrichment & Deduplication Pipeline, shallow embedding

This file embeds, in Lean 4, the core algorithms of the NextGenCRM
repository's prospect pipeline:

* `backend/apps/crm/services/deduplication_service.py` — the similarity
  engine (`_calculate_*_similarity`, `_normalize_string`), the duplicate
  checker (`check_for_duplicates`, `_fuzzy_match_prospects`,
  `_combine_detection_results`), list deduplication
  (`deduplicate_prospect_list`, `_select_best_prospect`);
* `backend/apps/crm/services/czech_registry.py` — ICO checksum validation
  (`validate_ico`) and registry enrichment (`enrich_prospect_data`);
* `backend/apps/crm/models.py` — the outreach sequence state machine on
  `Prospect` (`advance_sequence`, `mark_as_responded`,
  `should_send_followup`, `enrich_from_ico`).

Modelling conventions:
* Python `float` similarity scores are modelled as `ℚ`; the arithmetic
  involved (sums, products, divisions of small decimal constants) is exact
  in the ranges exercised, so no floating-point rounding is modelled.
* Python strings are Lean `String`s; `str.lower`/`str.isdigit`/whitespace
  handling is modelled on the ASCII fragment (the repository's data and all
  inputs used below are ASCII).
* Timestamps (`timezone.now()`, `DateTimeField`) are modelled as `ℤ`
  (epoch seconds); `timedelta(days=3)` is `259200`.
* `difflib.SequenceMatcher.ratio()` (CPython's stdlib, used by
  `_calculate_string_similarity`) is embedded in full below, including the
  `autojunk` popularity heuristic; `while` loops are given explicit fuel
  bounds large enough that the fuel never runs out on the guarded loops.
-/

-- The core rational operations are shipped `@[irreducible]`; re-opening them
-- lets `decide`/`rfl` evaluate the embedded similarity arithmetic.
unseal Rat.add Rat.mul Rat.sub Rat.inv Rat.ofScientific

namespace NextGenCRM

/-! ## Python string primitives (ASCII fragment) -/

/-- Python `str.lower()` on the ASCII fragment.  (All string helpers here
work on the character list `s.data` so that proofs can evaluate them by
kernel reduction.) -/
def pyLower (s : String) : String := String.mk (s.data.map Char.toLower)

/-- Python `str.strip()`: drop leading/trailing whitespace. -/
def pyStrip (s : String) : String :=
  String.mk (((s.data.dropWhile Char.isWhitespace).reverse.dropWhile
    Char.isWhitespace).reverse)

/-- Python `s.endswith(suf)`. -/
def pyEndsWith (s suf : String) : Bool :=
  suf.data.reverse.isPrefixOf s.data.reverse

/-- Python `s[:-n]` for `0 < n ≤ len(s)`: drop the last `n` characters. -/
def pyDropRight (s : String) (n : ℕ) : String :=
  String.mk (s.data.take (s.data.length - n))

/-- Python `s.startswith(p)`. -/
def pyStartsWith (s p : String) : Bool := p.data.isPrefixOf s.data

/-- Python `s[n:]`: drop the first `n` characters. -/
def pyDrop (s : String) (n : ℕ) : String := String.mk (s.data.drop n)

/-- Python `c in s` for a single character. -/
def pyContainsChar (s : String) (c : Char) : Bool := s.data.contains c

/-- Helper for Python `s.split(sep)` with a one-character separator:
accumulate the current piece (reversed) and cut at each separator. -/
def pySplitAux (sep : Char) : List Char → List Char → List String
  | [], acc => [String.mk acc.reverse]
  | c :: rest, acc =>
    if c = sep then String.mk acc.reverse :: pySplitAux sep rest []
    else pySplitAux sep rest (c :: acc)

/-- Python `s.split(sep)` (always returns a non-empty list). -/
def pySplit (sep : Char) (s : String) : List String := pySplitAux sep s.data []

/-- Python `sep.join(parts)` for a one-string separator. -/
def pyJoin (sep : String) : List String → String
  | [] => ""
  | x :: xs => xs.foldl (fun acc y => acc ++ sep ++ y) x

/-- Collapse every run of whitespace to a single space: the effect of
`re.sub(r'\s+', ' ', s)`. The `prevWs` flag records whether the previous
character emitted was part of a whitespace run. -/
def squeezeWs : Bool → List Char → List Char
  | _, [] => []
  | prevWs, c :: rest =>
    if c.isWhitespace then
      (if prevWs then [] else [' ']) ++ squeezeWs true rest
    else
      c :: squeezeWs false rest

/-! ## difflib.SequenceMatcher (CPython stdlib), as used with default
`isjunk=None`, `autojunk=True`. -/

namespace SeqMatcher

/-- The `autojunk` heuristic of `SequenceMatcher.__chain_b`: when `b` has at
least 200 elements, an element occurring more than `len(b) // 100 + 1` times
is treated as junk (excluded from `b2j`). -/
def isPopularJunk (b : List Char) (c : Char) : Bool :=
  decide (b.length ≥ 200) && decide (b.count c > b.length / 100 + 1)

/-- `b2j[c]`: ascending list of positions of `c` in `b`, empty for junk. -/
def b2j (b : List Char) (c : Char) : List ℕ :=
  if isPopularJunk b c then []
  else (List.range b.length).filter (fun j => b.getD j ' ' == c)

/-- Lookup in the `j2len` association list, defaulting to `0`
(`j2len.get(j, 0)`). -/
def alookup (m : List (ℕ × ℕ)) (k : ℕ) : ℕ :=
  ((m.find? (fun e => e.1 == k)).map (fun e => e.2)).getD 0

/-- Inner loop of `find_longest_match` for a fixed row `i`: `js` is the
(ascending, range-filtered) occurrence list of `a[i]` in `b`; builds the new
`j2len` row and updates the best match.  `k = j2len.get(j-1, 0) + 1`; the
`j = 0` case corresponds to Python's `j2len.get(-1, 0) = 0`. -/
def flmInner (j2len : List (ℕ × ℕ)) (i : ℕ) :
    List ℕ → List (ℕ × ℕ) → ℕ × ℕ × ℕ → List (ℕ × ℕ) × (ℕ × ℕ × ℕ)
  | [], acc, best => (acc, best)
  | j :: js, acc, (bi, bj, bs) =>
    let k := (if j = 0 then 0 else alookup j2len (j - 1)) + 1
    let best := if k > bs then (i + 1 - k, j + 1 - k, k) else (bi, bj, bs)
    flmInner j2len i js ((j, k) :: acc) best

/-- Outer loop of `find_longest_match` over rows `i ∈ [alo, ahi)`. -/
def flmOuter (a b : List Char) (blo bhi : ℕ) :
    List ℕ → List (ℕ × ℕ) → ℕ × ℕ × ℕ → ℕ × ℕ × ℕ
  | [], _, best => best
  | i :: is, j2len, best =>
    let js := (b2j b (a.getD i ' ')).filter (fun j => decide (blo ≤ j) && decide (j < bhi))
    let r := flmInner j2len i js [] best
    flmOuter a b blo bhi is r.1 r.2

/-- The two leftward `while` extension loops of `find_longest_match`
(`junk = false` for the junk-free pass, `junk = true` for the junk pass),
with explicit fuel. -/
def extLeft (a b : List Char) (alo blo : ℕ) (junk : Bool) :
    ℕ → ℕ × ℕ × ℕ → ℕ × ℕ × ℕ
  | 0, st => st
  | fuel + 1, (bi, bj, bs) =>
    if bi > alo ∧ bj > blo ∧ isPopularJunk b (b.getD (bj - 1) ' ') = junk ∧
        a.getD (bi - 1) ' ' = b.getD (bj - 1) ' ' then
      extLeft a b alo blo junk fuel (bi - 1, bj - 1, bs + 1)
    else (bi, bj, bs)

/-- The two rightward `while` extension loops of `find_longest_match`. -/
def extRight (a b : List Char) (ahi bhi : ℕ) (junk : Bool) :
    ℕ → ℕ × ℕ × ℕ → ℕ × ℕ × ℕ
  | 0, st => st
  | fuel + 1, (bi, bj, bs) =>
    if bi + bs < ahi ∧ bj + bs < bhi ∧ isPopularJunk b (b.getD (bj + bs) ' ') = junk ∧
        a.getD (bi + bs) ' ' = b.getD (bj + bs) ' ' then
      extRight a b ahi bhi junk fuel (bi, bj, bs + 1)
    else (bi, bj, bs)

/-- `SequenceMatcher.find_longest_match(alo, ahi, blo, bhi)`: the j2len
dynamic-programming loop followed by the four extension loops. -/
def findLongestMatch (a b : List Char) (alo ahi blo bhi : ℕ) : ℕ × ℕ × ℕ :=
  let fuel := a.length + b.length + 1
  let best := flmOuter a b blo bhi (List.range' alo (ahi - alo)) [] (alo, blo, 0)
  let best := extLeft a b alo blo false fuel best
  let best := extRight a b ahi bhi false fuel best
  let best := extLeft a b alo blo true fuel best
  let best := extRight a b ahi bhi true fuel best
  best

/-- Total size of all matching blocks (`sum(size for _, _, size in
get_matching_blocks())`): recursively split around the longest match. -/
def matchTotal (a b : List Char) : ℕ → ℕ → ℕ → ℕ → ℕ → ℕ
  | 0, _, _, _, _ => 0
  | fuel + 1, alo, ahi, blo, bhi =>
    let m := findLongestMatch a b alo ahi blo bhi
    if m.2.2 = 0 then 0
    else
      m.2.2 + matchTotal a b fuel alo m.1 blo m.2.1 +
        matchTotal a b fuel (m.1 + m.2.2) ahi (m.2.1 + m.2.2) bhi

/-- `SequenceMatcher.ratio() = 2.0 * M / (len(a) + len(b))`, and `1.0` when
both sequences are empty. -/
def ratio (a b : List Char) : ℚ :=
  if a.length + b.length = 0 then 1
  else 2 * (matchTotal a b (a.length + b.length + 1) 0 a.length 0 b.length : ℚ) /
    ((a.length : ℚ) + (b.length : ℚ))

end SeqMatcher

/-! ## DeduplicationService: the similarity engine -/

/-- Python's substring test `xs in ys` (contiguous subsequence). -/
def isSubstring (xs ys : List Char) : Bool :=
  ys.tails.any (fun t => xs.isPrefixOf t)

/-- `DeduplicationService._normalize_string`: lowercase, strip, drop the
business suffixes in order (re-stripping after each), collapse whitespace. -/
def business_suffixes : List String :=
  ["s.r.o.", "a.s.", "spol.", "ltd.", "inc.", "corp.", "o.p.s."]

/-- `_normalize_string(s)`. -/
def normalize_string (s : String) : String :=
  let s := pyStrip (pyLower s)
  let s := business_suffixes.foldl
    (fun acc suf => if pyEndsWith acc suf then pyStrip (pyDropRight acc suf.length) else acc) s
  String.mk (squeezeWs false s.data)

/-- `_calculate_string_similarity(str1, str2)`: `0` when either is empty; `1`
on equal normalizations; else the `SequenceMatcher` ratio, floored at `0.8`
when one normalized string is a substring of the other. -/
def calculate_string_similarity (str1 str2 : String) : ℚ :=
  if str1 = "" ∨ str2 = "" then 0
  else
    let n1 := normalize_string str1
    let n2 := normalize_string str2
    if n1 = n2 then 1
    else
      let sim := SeqMatcher.ratio n1.data n2.data
      if isSubstring n1.data n2.data ∨ isSubstring n2.data n1.data then max sim 0.8
      else sim

/-- `_calculate_email_similarity(email1, email2)`. -/
def calculate_email_similarity (email1 email2 : String) : ℚ :=
  if email1 = "" ∨ email2 = "" then 0
  else if pyLower email1 = pyLower email2 then 1
  else
    let domain1 := if pyContainsChar email1 '@' then pyLower ((pySplit '@' email1).getLastD "") else ""
    let domain2 := if pyContainsChar email2 '@' then pyLower ((pySplit '@' email2).getLastD "") else ""
    if domain1 ≠ "" ∧ domain2 ≠ "" ∧ domain1 = domain2 then 0.8 else 0

/-- Phone normalization `re.sub(r'[^\d+]', '', phone)`: keep digits and `+`. -/
def normalize_phone (p : String) : String :=
  String.mk (p.data.filter (fun c => c.isDigit || c == '+'))

/-- `_calculate_phone_similarity(phone1, phone2)`. -/
def calculate_phone_similarity (phone1 phone2 : String) : ℚ :=
  if phone1 = "" ∨ phone2 = "" then 0
  else
    let n1 := normalize_phone phone1
    let n2 := normalize_phone phone2
    if n1 = n2 then 1
    else if n1.length > 6 ∧ n2.length > 6 ∧
        (isSubstring n1.data n2.data ∨ isSubstring n2.data n1.data) then 0.9
    else 0

/-- URL normalization in `_calculate_website_similarity`: lowercase, strip,
drop `https://` / `http://` / `www.` in that order, drop trailing slashes. -/
def normalize_url (url : String) : String :=
  let u := pyStrip (pyLower url)
  let u := ["https://", "http://", "www."].foldl
    (fun acc p => if pyStartsWith acc p then pyDrop acc p.length else acc) u
  String.mk ((u.data.reverse.dropWhile (fun c => c == '/')).reverse)

/-- `_calculate_website_similarity(website1, website2)`. -/
def calculate_website_similarity (website1 website2 : String) : ℚ :=
  if website1 = "" ∨ website2 = "" then 0
  else
    let n1 := normalize_url website1
    let n2 := normalize_url website2
    if n1 = n2 then 1
    else
      let d1 := String.mk (n1.data.takeWhile (fun c => c != '/'))
      let d2 := String.mk (n2.data.takeWhile (fun c => c != '/'))
      if d1 = d2 then 0.9 else 0

/-- The prospect dictionary as consumed by `DeduplicationService`
(the keys read by `_calculate_similarity` and friends; absent keys are the
empty string, matching `prospect.get(field, '')`). -/
structure ProspectData where
  company_name : String := ""
  email_address : String := ""
  phone_number : String := ""
  website : String := ""
  location : String := ""
  ico : String := ""
  industry : String := ""
  description : String := ""
  deriving Repr, DecidableEq

/-- `self.email_weight`. -/
def email_weight : ℚ := 0.4
/-- `self.company_weight`. -/
def company_weight : ℚ := 0.3
/-- `self.phone_weight`. -/
def phone_weight : ℚ := 0.15
/-- `self.address_weight`. -/
def address_weight : ℚ := 0.15
/-- `self.similarity_threshold`. -/
def similarity_threshold : ℚ := 0.85

/-- `_calculate_similarity(prospect1, prospect2)`: the weighted sum of the
six field similarities divided by the sum of all six weights, clipped above
at `1`. -/
def calculate_similarity (p1 p2 : ProspectData) : ℚ :=
  let email_sim := calculate_email_similarity p1.email_address p2.email_address
  let company_sim := calculate_string_similarity p1.company_name p2.company_name
  let phone_sim := calculate_phone_similarity p1.phone_number p2.phone_number
  let address_sim := calculate_string_similarity p1.location p2.location
  let ico_sim : ℚ := if p1.ico ≠ "" ∧ p2.ico ≠ "" ∧ p1.ico = p2.ico then 1 else 0
  let website_sim := calculate_website_similarity p1.website p2.website
  let total :=
    (email_sim * email_weight + company_sim * company_weight +
      phone_sim * phone_weight + address_sim * address_weight +
      ico_sim * 0.3 + website_sim * 0.2) /
    (email_weight + company_weight + phone_weight + address_weight + 0.3 + 0.2)
  min total 1

/-! ## DeduplicationService: duplicate checking -/

/-- One entry of the `best_matches` list in `_fuzzy_match_prospects`. -/
structure FuzzyMatch where
  prospect : ProspectData
  similarity : ℚ
  matching_fields : List String
  deriving Repr, DecidableEq

/-- `_identify_matching_fields(prospect1, prospect2)`: fields non-empty on
both sides whose field-specific similarity exceeds `0.8` (the `ico` field
falls into the generic string-similarity branch). -/
def identify_matching_fields (p1 p2 : ProspectData) : List String :=
  (if p1.company_name ≠ "" ∧ p2.company_name ≠ "" ∧
      calculate_string_similarity p1.company_name p2.company_name > 0.8
    then ["company_name"] else []) ++
  (if p1.email_address ≠ "" ∧ p2.email_address ≠ "" ∧
      calculate_email_similarity p1.email_address p2.email_address > 0.8
    then ["email_address"] else []) ++
  (if p1.phone_number ≠ "" ∧ p2.phone_number ≠ "" ∧
      calculate_phone_similarity p1.phone_number p2.phone_number > 0.8
    then ["phone_number"] else []) ++
  (if p1.website ≠ "" ∧ p2.website ≠ "" ∧
      calculate_website_similarity p1.website p2.website > 0.8
    then ["website"] else []) ++
  (if p1.ico ≠ "" ∧ p2.ico ≠ "" ∧
      calculate_string_similarity p1.ico p2.ico > 0.8
    then ["ico"] else []) ++
  (if p1.location ≠ "" ∧ p2.location ≠ "" ∧
      calculate_string_similarity p1.location p2.location > 0.8
    then ["location"] else [])

/-- Stable insertion preserving original order among equal similarities
(Python `list.sort(key=..., reverse=True)` is stable). -/
def insertDesc (x : FuzzyMatch) : List FuzzyMatch → List FuzzyMatch
  | [] => [x]
  | y :: ys => if x.similarity ≥ y.similarity then x :: y :: ys else y :: insertDesc x ys

/-- Stable sort by descending similarity. -/
def sortDesc : List FuzzyMatch → List FuzzyMatch
  | [] => []
  | x :: xs => insertDesc x (sortDesc xs)

/-- Python `int(q)`: truncation toward zero. -/
def pyInt (q : ℚ) : ℤ := if q < 0 then -((-q).floor) else q.floor

/-- The duplicate-check verdict dictionary (`is_duplicate`, `confidence`,
`duplicates`, `method`). -/
structure DuplicateCheckResult where
  is_duplicate : Bool
  confidence : ℤ
  duplicates : List FuzzyMatch := []
  method : String
  deriving Repr, DecidableEq

/-- `_fuzzy_match_prospects(new_prospect, existing_prospects)`: keep pool
members with overall similarity `> 0.5`, sort descending, report the top 3;
with no such member the verdict is `fuzzy_matching` with confidence `0`. -/
def fuzzy_match_prospects (new_prospect : ProspectData)
    (existing_prospects : List ProspectData) : DuplicateCheckResult :=
  let best_matches := (existing_prospects.map (fun e =>
      ({ prospect := e,
         similarity := calculate_similarity new_prospect e,
         matching_fields := identify_matching_fields new_prospect e } : FuzzyMatch))).filter
    (fun m => decide (m.similarity > 0.5))
  let best_matches := sortDesc best_matches
  match best_matches with
  | [] => { is_duplicate := false, confidence := 0, duplicates := [], method := "fuzzy_matching" }
  | m :: _ =>
    { is_duplicate := decide (m.similarity > similarity_threshold),
      confidence := pyInt (m.similarity * 100),
      duplicates := best_matches.take 3,
      method := "fuzzy_matching" }

/-- Outcome of `_ai_duplicate_check` (the external AI oracle's verdict,
already reduced to the fields `_combine_detection_results` reads). -/
structure AIVerdict where
  is_duplicate : Bool := false
  confidence : ℤ := 0
  deriving Repr, DecidableEq

/-- `_combine_detection_results(fuzzy_results, ai_results)`: confidence is
`0.6·fuzzy + 0.4·ai` truncated to an integer; duplicate when (fuzzy says so
with confidence `> 80`) or (AI says so with confidence `> 70`) or the
combined confidence exceeds `75`. -/
def combine_detection_results (fuzzy : DuplicateCheckResult) (ai : AIVerdict) :
    DuplicateCheckResult :=
  let combined_confidence : ℚ := (fuzzy.confidence : ℚ) * 0.6 + (ai.confidence : ℚ) * 0.4
  let is_dup :=
    (fuzzy.is_duplicate && decide (fuzzy.confidence > 80)) ||
    (ai.is_duplicate && decide (ai.confidence > 70)) ||
    decide (combined_confidence > 75)
  { is_duplicate := is_dup,
    confidence := pyInt combined_confidence,
    duplicates := fuzzy.duplicates,
    method := "combined_fuzzy_ai" }

/-- `check_for_duplicates(new_prospect, ...)` over an explicitly supplied
candidate pool (`_get_existing_prospects` is the storage collaborator), with
the AI oracle's answer passed in as `ai`. -/
def check_for_duplicates (ai : AIVerdict) (new_prospect : ProspectData)
    (existing_prospects : List ProspectData) : DuplicateCheckResult :=
  if existing_prospects = [] then
    { is_duplicate := false, confidence := 0, duplicates := [], method := "no_existing_data" }
  else
    let fuzzy := fuzzy_match_prospects new_prospect existing_prospects
    if fuzzy.confidence > 90 then fuzzy
    else if fuzzy.confidence > 50 then combine_detection_results fuzzy ai
    else fuzzy

/-! ## DeduplicationService: list deduplication -/

/-- `_select_best_prospect`'s completeness score for one prospect. -/
def prospect_score (p : ProspectData) : ℤ :=
  (if p.company_name ≠ "" then 10 else 0) +
  (if p.email_address ≠ "" ∧ pyContainsChar p.email_address '@' then 15 else 0) +
  (if p.phone_number ≠ "" then 10 else 0) +
  (if p.website ≠ "" then 8 else 0) +
  (if p.ico ≠ "" then 12 else 0) +
  (if p.industry ≠ "" then 5 else 0) +
  (if p.location ≠ "" then 5 else 0) +
  (if p.description ≠ "" then ((p.description.length / 10 : ℕ) : ℤ) else 0) -
  (if isSubstring "info@".data (pyLower p.email_address).data ∨
      isSubstring "contact@".data (pyLower p.email_address).data ∨
      isSubstring "admin@".data (pyLower p.email_address).data then 5 else 0)

/-- `_select_best_prospect(prospects)`: the head of Python's stable
descending sort by score is the leftmost prospect of maximal score, computed
here by a fold that replaces the current best only on a strictly greater
score. -/
def select_best_prospect (prospects : List ProspectData) : ProspectData :=
  match prospects with
  | [] => {}
  | p :: rest =>
    rest.foldl (fun best q => if prospect_score q > prospect_score best then q else best) p

/-- One member of a duplicate group (`{'index', 'prospect', 'similarity'}`). -/
structure DuplicateEntry where
  index : ℕ
  prospect : ProspectData
  similarity : ℚ
  deriving Repr, DecidableEq

/-- A duplicate group of `deduplicate_prospect_list`. -/
structure DuplicateGroup where
  master_index : ℕ
  master : ProspectData
  duplicates : List DuplicateEntry
  total_count : ℕ
  deriving Repr, DecidableEq

/-- Result dictionary of `deduplicate_prospect_list`. -/
structure DedupListResult where
  unique_prospects : List ProspectData
  duplicate_groups : List DuplicateGroup
  original_count : ℕ
  unique_count : ℕ
  duplicates_removed : ℕ
  deriving Repr, DecidableEq

/-- Indexing `prospects[i]` (always in range where used). -/
def getP (ps : List ProspectData) (i : ℕ) : ProspectData := ps.getD i {}

/-- The main loop of `deduplicate_prospect_list`: `rem` is the list of
indices still to visit (a suffix of `range n`, so the indices after `i` are
exactly `rem`'s tail), `processed` the set of indices already absorbed into
a group. Marking duplicates inside the inner `for j` loop is equivalent to
the filter here because each `j` is visited once per outer step. -/
def dedupAux (ps : List ProspectData) :
    List ℕ → List ℕ → List ProspectData × List DuplicateGroup
  | [], _ => ([], [])
  | i :: rest, processed =>
    if i ∈ processed then dedupAux ps rest processed
    else
      let dups := rest.filter (fun j =>
        decide (j ∉ processed) &&
        decide (calculate_similarity (getP ps i) (getP ps j) > similarity_threshold))
      if dups.isEmpty then
        let r := dedupAux ps rest processed
        (getP ps i :: r.1, r.2)
      else
        let entries := dups.map (fun j =>
          ({ index := j, prospect := getP ps j,
             similarity := calculate_similarity (getP ps i) (getP ps j) } : DuplicateEntry))
        let r := dedupAux ps rest (processed ++ dups)
        (select_best_prospect (getP ps i :: entries.map (fun e => e.prospect)) :: r.1,
         ({ master_index := i, master := getP ps i, duplicates := entries,
            total_count := entries.length + 1 } : DuplicateGroup) :: r.2)

/-- `deduplicate_prospect_list(prospects)`. -/
def deduplicate_prospect_list (prospects : List ProspectData) : DedupListResult :=
  let r := dedupAux prospects (List.range prospects.length) []
  { unique_prospects := r.1,
    duplicate_groups := r.2,
    original_count := prospects.length,
    unique_count := r.1.length,
    duplicates_removed := prospects.length - r.1.length }

/-! ## CzechRegistryService.validate_ico -/

/-- `validate_ico(ico)`: keep the digit characters, left-pad with zeros to 8
(`zfill(8)`), require exactly 8 digits, and check the weighted mod-11
checksum of the first seven digits against the eighth. -/
def validate_ico (ico : String) : Bool :=
  if ico = "" then false
  else
    let ico_clean := ico.data.filter Char.isDigit
    if ico_clean = [] then false
    else
      let padded := List.replicate (8 - ico_clean.length) '0' ++ ico_clean
      if padded.length ≠ 8 then false
      else
        let digits := padded.map (fun c => c.toNat - '0'.toNat)
        let weights := [8, 7, 6, 5, 4, 3, 2]
        let checksum : ℕ := ((digits.zip weights).map (fun x => x.1 * x.2)).sum
        let remainder := checksum % 11
        let expected_check_digit := if remainder < 2 then remainder else 11 - remainder
        decide (digits.getD 7 0 = expected_check_digit)

/-! ## Prospect model: outreach sequence state machine and enrichment -/

/-- The fields of the `Prospect` Django model touched by
`should_send_followup`, `advance_sequence`, `mark_as_responded` and
`enrich_from_ico`.  `sequence_position` is an `IntegerField` (modelled `ℤ`);
datetimes are epoch seconds; `registration_date` is carried as the verbatim
ISO string delivered by the registry (calendar parsing is not modelled). -/
structure Prospect where
  sequence_position : ℤ := 0
  status : String := "new"
  next_followup_date : Option ℤ := none
  response_received : Bool := false
  response_date : Option ℤ := none
  ico : String := ""
  ico_enriched : Bool := false
  ico_enriched_at : Option ℤ := none
  company_name : String := ""
  industry : String := ""
  address_street : String := ""
  address_city : String := ""
  address_state : String := ""
  address_postal_code : String := ""
  address_country : String := ""
  legal_form : String := ""
  legal_form_code : String := ""
  employee_count_range : String := ""
  business_activities : List (String × String) := []
  registration_date : Option String := none
  contact_name : String := ""
  contact_first_name : String := ""
  contact_last_name : String := ""
  contact_title : String := ""
  deriving Repr, DecidableEq

/-- `timedelta(days=3)` in seconds. -/
def threeDays : ℤ := 259200

/-- `Prospect.should_send_followup` at current time `now`:
`next_followup_date` set and not in the future, sequence not finished, and
status not terminal. -/
def should_send_followup (now : ℤ) (p : Prospect) : Bool :=
  (match p.next_followup_date with
   | none => false
   | some d => decide (d ≤ now)) &&
  decide (p.sequence_position < 4) &&
  !(["responded", "converted", "dead", "disqualified"].contains p.status)

/-- `status_map` of `advance_sequence`. -/
def status_map (pos : ℤ) : Option String :=
  if pos = 0 then some "new"
  else if pos = 1 then some "sent"
  else if pos = 2 then some "follow_up_1"
  else if pos = 3 then some "follow_up_2"
  else if pos = 4 then some "follow_up_3"
  else none

/-- `Prospect.advance_sequence` at current time `now`; the `Bool` records
whether `save()` ran. -/
def advance_sequence (now : ℤ) (p : Prospect) : Prospect × Bool :=
  if p.sequence_position < 4 then
    let pos := p.sequence_position + 1
    let st := match status_map pos with
      | some s => s
      | none => p.status
    if pos < 4 then
      ({ p with sequence_position := pos, status := st,
                next_followup_date := some (now + threeDays) }, true)
    else
      ({ p with sequence_position := pos, status := "dead",
                next_followup_date := none }, true)
  else (p, false)

/-- `Prospect.mark_as_responded` at current time `now`. -/
def mark_as_responded (now : ℤ) (p : Prospect) : Prospect × Bool :=
  ({ p with status := "responded", response_received := true,
            response_date := some now, next_followup_date := none }, true)

/-! ## CzechRegistryService.enrich_prospect_data and Prospect.enrich_from_ico -/

/-- The company record assembled by `fetch_company_data` from the external
ARES registry (absent dictionary keys are `none`). -/
structure AresData where
  company_name : Option String := none
  industry : Option String := none
  address_street : Option String := none
  address_city : Option String := none
  address_state : Option String := none
  address_postal_code : Option String := none
  address_country : Option String := none
  legal_form : Option String := none
  legal_form_code : Option String := none
  registration_date : Option String := none
  business_activities : Option (List (String × String)) := none
  employee_count_range : Option String := none
  tax_id : Option String := none
  ceo_name : Option String := none
  management : Option (List String) := none
  deriving Repr, DecidableEq

/-- The prospect-data dictionary flowing through `enrich_prospect_data`
(string keys always present; optional keys as `Option`). -/
structure EnrichData where
  ico : String := ""
  company_name : String := ""
  industry : String := ""
  address_street : String := ""
  address_city : String := ""
  address_state : String := ""
  address_postal_code : String := ""
  address_country : String := ""
  legal_form : Option String := none
  legal_form_code : Option String := none
  registration_date : Option String := none
  business_activities : Option (List (String × String)) := none
  employee_count_range : Option String := none
  tax_id : Option String := none
  ceo_name : Option String := none
  management : Option (List String) := none
  contact_name : Option String := none
  contact_first_name : Option String := none
  contact_last_name : Option String := none
  ico_enriched : Bool := false
  ico_enriched_at : Option ℤ := none
  deriving Repr, DecidableEq

/-- Mapping-table update of `enrich_prospect_data`: overwrite only when the
ARES key is present and truthy. -/
def updMapped (cur : String) (v : Option String) : String :=
  match v with
  | some s => if s ≠ "" then s else cur
  | none => cur

/-- Additional-field update: copy whenever the key is present
(`if field in ares_data`), truthy or not. -/
def updPresent {α : Type} (cur v : Option α) : Option α :=
  match v with
  | some s => some s
  | none => cur

/-- `enrich_prospect_data(prospect_data)` with the external registry fetch
result supplied as `fetched` (`fetch_company_data` returns `None` on invalid
ICO, lookup failure or parse failure) and `now` the enrichment timestamp. -/
def enrich_prospect_data (fetched : Option AresData) (now : ℤ) (d : EnrichData) :
    EnrichData :=
  if d.ico = "" then d
  else
    match fetched with
    | none => d
    | some ares =>
      let e := { d with
        company_name := updMapped d.company_name ares.company_name,
        industry := updMapped d.industry ares.industry,
        address_street := updMapped d.address_street ares.address_street,
        address_city := updMapped d.address_city ares.address_city,
        address_state := updMapped d.address_state ares.address_state,
        address_postal_code := updMapped d.address_postal_code ares.address_postal_code,
        address_country := updMapped d.address_country ares.address_country,
        legal_form := updPresent d.legal_form ares.legal_form,
        legal_form_code := updPresent d.legal_form_code ares.legal_form_code,
        registration_date := updPresent d.registration_date ares.registration_date,
        business_activities := updPresent d.business_activities ares.business_activities,
        employee_count_range := updPresent d.employee_count_range ares.employee_count_range,
        tax_id := updPresent d.tax_id ares.tax_id,
        ceo_name := updPresent d.ceo_name ares.ceo_name,
        management := updPresent d.management ares.management }
      let e := match ares.ceo_name with
        | some ceo =>
          if ceo ≠ "" then
            let name_parts := (pySplit ' ' ceo).filter (fun s => s ≠ "")
            if name_parts.length ≥ 2 then
              { e with contact_first_name := some (name_parts.getD 0 ""),
                       contact_last_name := some (pyJoin " " (name_parts.drop 1)),
                       contact_name := some ceo }
            else { e with contact_name := some ceo }
          else e
        | none => e
      { e with ico_enriched := true, ico_enriched_at := some now }

/-- Truthy string under an `Option`. -/
def optTruthy (v : Option String) : Bool :=
  match v with
  | some s => s ≠ ""
  | none => false

/-- String-field update in `enrich_from_ico`: assign only when truthy. -/
def updTruthy (cur : String) (v : String) : String := if v ≠ "" then v else cur

/-- `Prospect.enrich_from_ico()` with the registry fetch outcome passed as
`fetched`; the `Bool` is the method's return value. -/
def enrich_from_ico (fetched : Option AresData) (now : ℤ) (p : Prospect) :
    Prospect × Bool :=
  if p.ico = "" then (p, false)
  else
    let prospect_data : EnrichData :=
      { ico := p.ico, company_name := p.company_name, industry := p.industry,
        address_street := p.address_street, address_city := p.address_city,
        address_state := p.address_state, address_postal_code := p.address_postal_code,
        address_country := p.address_country }
    let enriched := enrich_prospect_data fetched now prospect_data
    if enriched.ico_enriched = false then (p, false)
    else
      let p' := { p with
        company_name := updTruthy p.company_name enriched.company_name,
        industry := updTruthy p.industry enriched.industry,
        address_street := updTruthy p.address_street enriched.address_street,
        address_city := updTruthy p.address_city enriched.address_city,
        address_state := updTruthy p.address_state enriched.address_state,
        address_postal_code := updTruthy p.address_postal_code enriched.address_postal_code,
        address_country := updTruthy p.address_country enriched.address_country,
        legal_form := enriched.legal_form.getD "",
        legal_form_code := enriched.legal_form_code.getD "",
        employee_count_range := enriched.employee_count_range.getD "",
        business_activities := enriched.business_activities.getD [],
        contact_name :=
          (match enriched.contact_name with
           | some s => if s ≠ "" then s else p.contact_name
           | none => p.contact_name),
        contact_first_name :=
          (match enriched.contact_first_name with
           | some s => if s ≠ "" then s else p.contact_first_name
           | none => p.contact_first_name),
        contact_last_name :=
          (match enriched.contact_last_name with
           | some s => if s ≠ "" then s else p.contact_last_name
           | none => p.contact_last_name),
        contact_title := if optTruthy enriched.ceo_name then "CEO/Jednatel" else p.contact_title,
        -- `registration_date` is stored verbatim (ISO-date parsing elided)
        registration_date :=
          (match enriched.registration_date with
           | some s => if s ≠ "" then some s else p.registration_date
           | none => p.registration_date),
        ico_enriched := true,
        ico_enriched_at := some now }
      (p', true)

/-! ## Spec-side definitions (written from the claims' words, for
refinement comparisons) -/

/-- The aggregate similarity as claim C1 words it: weighted sum of the
per-field similarities, normalized by the sum of the weights of only those
fields present (non-empty) on both records — an absent field contributes
zero weight — and clipped to `[0, 1]`. -/
def claimed_overall_similarity (p1 p2 : ProspectData) : ℚ :=
  let fields : List (ℚ × ℚ × Bool) :=
    [(email_weight, calculate_email_similarity p1.email_address p2.email_address,
        p1.email_address ≠ "" && p2.email_address ≠ ""),
     (company_weight, calculate_string_similarity p1.company_name p2.company_name,
        p1.company_name ≠ "" && p2.company_name ≠ ""),
     (phone_weight, calculate_phone_similarity p1.phone_number p2.phone_number,
        p1.phone_number ≠ "" && p2.phone_number ≠ ""),
     (address_weight, calculate_string_similarity p1.location p2.location,
        p1.location ≠ "" && p2.location ≠ ""),
     (0.3, if p1.ico ≠ "" ∧ p2.ico ≠ "" ∧ p1.ico = p2.ico then 1 else 0,
        p1.ico ≠ "" && p2.ico ≠ ""),
     (0.2, calculate_website_similarity p1.website p2.website,
        p1.website ≠ "" && p2.website ≠ "")]
  let applied := fields.filter (fun f => f.2.2)
  let wsum := (applied.map (fun f => f.1 * f.2.1)).sum
  let wtot := (applied.map (fun f => f.1)).sum
  min (max (wsum / wtot) 0) 1

/-- The aggregate similarity as the amended claim C1 words it: the same
weighted sum (a field absent on either side has a zero similarity term) but
normalized by the constant sum of all six weights, `1.5`, regardless of
which fields are present, then clipped above at `1`. -/
def amended_overall_similarity (p1 p2 : ProspectData) : ℚ :=
  let wsum :=
    calculate_email_similarity p1.email_address p2.email_address * 0.4 +
    calculate_string_similarity p1.company_name p2.company_name * 0.3 +
    calculate_phone_similarity p1.phone_number p2.phone_number * 0.15 +
    calculate_string_similarity p1.location p2.location * 0.15 +
    (if p1.ico ≠ "" ∧ p2.ico ≠ "" ∧ p1.ico = p2.ico then (1 : ℚ) else 0) * 0.3 +
    calculate_website_similarity p1.website p2.website * 0.2
  min (wsum / 1.5) 1

/-- Claim C3's checksum rule on a list of decimal digits padded to length 8:
the eighth digit equals the modulo-11 check digit of the first seven under
weights `[8,7,6,5,4,3,2]` (check digit = remainder when remainder `< 2`,
else `11 -` remainder). -/
def claimed_check_digit_ok (digits : List ℕ) : Prop :=
  -- zipping with the seven weights selects exactly the first seven digits
  let remainder : ℕ := ((digits.zip [8, 7, 6, 5, 4, 3, 2]).map
    (fun x => x.1 * x.2)).sum % 11
  digits.getD 7 0 = if remainder < 2 then remainder else 11 - remainder

/-- Left-pad a digit-character list with `'0'` to length 8 and read the
decimal digits. -/
def padded_digits (ds : List Char) : List ℕ :=
  (List.replicate (8 - ds.length) '0' ++ ds).map (fun c => c.toNat - '0'.toNat)

/-- Claim C9's invariant on the prospect-data dictionary. -/
def enrich_data_inv (d : EnrichData) : Prop :=
  d.ico_enriched = true → d.ico_enriched_at.isSome ∧ d.ico ≠ ""

/-- Claim C9's invariant on the `Prospect` model. -/
def prospect_ico_inv (p : Prospect) : Prop :=
  p.ico_enriched = true → p.ico_enriched_at.isSome ∧ p.ico ≠ ""

end NextGenCRM

namespace NextGenCRM

/-! ## Claim C1 -/

/-- C1, counterexample: for two records sharing only an email address, the
code's `_calculate_similarity` (which always divides by the full weight sum
`1.5`) gives `0.4/1.5 = 4/15`, not the `0.4/0.4 = 1` demanded by the claim's
present-weights normalization, so the claim as stated is false. -/
theorem C1_counterexample :
    calculate_similarity { email_address := "a@b.cz" } { email_address := "a@b.cz" } ≠
      claimed_overall_similarity { email_address := "a@b.cz" } { email_address := "a@b.cz" } := by
  decide

/-- C1, amended: `overall_similarity(a, b)` equals the weighted sum of the
per-field similarities (email 0.4, company name 0.3, phone 0.15, address
0.15, registry-ID 0.3, website 0.2, a field absent on either side
contributing a zero similarity term), normalized by the constant sum `1.5`
of all six weights regardless of which fields are present, and clipped to
`[0, 1]`. -/
theorem C1_amended_normalization (p1 p2 : ProspectData) :
    calculate_similarity p1 p2 = amended_overall_similarity p1 p2 := by
  unfold calculate_similarity amended_overall_similarity
  unfold email_weight company_weight phone_weight address_weight
  ring_nf

/-! ## Claim C2 -/

/-- C2, counterexample: on a non-empty candidate pool in which no member
scores above `0.5`, `check_for_duplicates` reports method `fuzzy_matching`
(the empty-best-matches branch of `_fuzzy_match_prospects`), not
`no_existing_data` — that tag is reserved for an empty pool. -/
theorem C2_counterexample :
    ([({} : ProspectData)] ≠ []) ∧
    (∀ e ∈ [({} : ProspectData)], calculate_similarity {} e ≤ 0.5) ∧
    (check_for_duplicates {} {} [({} : ProspectData)]).method ≠ "no_existing_data" := by
  decide

/-- C2, amended: for every candidate and non-empty pool in which no member
has overall similarity above `0.5`, `check_for_duplicates` returns the
low-confidence non-duplicate verdict with method `fuzzy_matching`:
`is_duplicate = false`, confidence `0`, no reported duplicates. -/
theorem C2_amended_low_similarity_verdict (ai : AIVerdict) (cand : ProspectData)
    (pool : List ProspectData) (hne : pool ≠ [])
    (hlow : ∀ e ∈ pool, calculate_similarity cand e ≤ 0.5) :
    check_for_duplicates ai cand pool =
      { is_duplicate := false, confidence := 0, duplicates := [],
        method := "fuzzy_matching" } := by
  unfold check_for_duplicates
  rw [if_neg hne]
  have hf : fuzzy_match_prospects cand pool =
      { is_duplicate := false, confidence := 0, duplicates := [],
        method := "fuzzy_matching" } := by
    unfold fuzzy_match_prospects
    have hfil : ((pool.map (fun e =>
        ({ prospect := e,
           similarity := calculate_similarity cand e,
           matching_fields := identify_matching_fields cand e } : FuzzyMatch))).filter
          (fun m => decide (m.similarity > 0.5))) = [] := by
      rw [List.filter_eq_nil_iff]
      intro m hm
      obtain ⟨e, he, rfl⟩ := List.mem_map.1 hm
      simpa using not_lt.2 (hlow e he)
    rw [hfil]
    rfl
  rw [hf]
  rfl

/-- C2 witness: the amended verdict theorem at the concrete one-element
all-empty pool (whose similarity to the empty candidate is `0`). -/
theorem C2_witness :
    check_for_duplicates {} {} [({} : ProspectData)] =
      { is_duplicate := false, confidence := 0, duplicates := [],
        method := "fuzzy_matching" } :=
  C2_amended_low_similarity_verdict {} {} [({} : ProspectData)] (by decide) (by decide)

/-! ## Claim C3 -/

/-- C3, counterexample: `validate_ico` first strips non-digits and left-pads
with zeros to 8 digits, so the two-character input "19" (padded to
"00000019", whose check digit works out) is accepted even though it is not
an 8-digit string — refuting "false for every input that is not an 8-digit
string". -/
theorem C3_counterexample : validate_ico "19" = true ∧ ¬("19".length = 8) := by
  decide

/-- C3, amended: `validate_ico` returns true exactly for inputs that contain
at least one and at most eight digit characters and whose digit sequence,
left-padded with zeros to 8 digits, satisfies the modulo-11 check-digit rule
(weights `[8,7,6,5,4,3,2]`, check digit = remainder when remainder `< 2`,
else `11 -` remainder); in particular "12345679" is accepted and "12345670"
rejected. -/
theorem C3_amended_characterization :
    (∀ s : String, validate_ico s = true ↔
      (s.data.filter Char.isDigit ≠ [] ∧
       (s.data.filter Char.isDigit).length ≤ 8 ∧
       claimed_check_digit_ok (padded_digits (s.data.filter Char.isDigit)))) ∧
    validate_ico "12345679" = true ∧ validate_ico "12345670" = false := by
  refine ⟨?_, by decide, by decide⟩
  intro s
  unfold validate_ico claimed_check_digit_ok padded_digits
  by_cases hs : s = ""
  · subst hs
    simp
  · rw [if_neg hs]
    by_cases hc : s.data.filter Char.isDigit = []
    · simp [hc]
    · rw [if_neg hc]
      by_cases hl : (s.data.filter Char.isDigit).length ≤ 8
      · have hlen : (List.replicate (8 - (s.data.filter Char.isDigit).length) '0' ++
            s.data.filter Char.isDigit).length = 8 := by
          simp
          omega
        rw [if_neg (by omega)]
        simp [hc, hl, decide_eq_true_iff]
      · have hlen : (List.replicate (8 - (s.data.filter Char.isDigit).length) '0' ++
            s.data.filter Char.isDigit).length ≠ 8 := by
          simp
          omega
        rw [if_pos (by simpa using hlen)]
        simp [hl]

/-! ## Claim C5 -/

/-- C5, counterexample: `mark_as_responded` is not terminal — a subsequent
`advance_sequence` (position `0 < 4`) moves the prospect to status `sent`
and schedules a follow-up, after which `should_send_followup` is true once
the scheduled time arrives.  This refutes the claim that the predicate stays
false in every state reachable by subsequent sequence operations. -/
theorem C5_counterexample :
    should_send_followup 259200
      ((advance_sequence 0 ((mark_as_responded 0 ({} : Prospect)).1)).1) = true := by
  decide

/-- C5, amended: in the state immediately produced by `mark_as_responded`,
`should_send_followup` is false at every evaluation time and for every prior
state, regardless of `next_followup_date` (the method both clears the date
and forces status `responded`); terminality under later `advance_sequence`
calls does not hold. -/
theorem C5_amended_responded_blocks_followup (p : Prospect) (now t : ℤ) :
    should_send_followup t ((mark_as_responded now p).1) = false := by
  simp [mark_as_responded, should_send_followup]

/-! ## Claim C4 -/

/-- C4: starting from sequence position 0, three `advance_sequence` calls
yield positions 1, 2, 3 with statuses `sent`, `follow_up_1`, `follow_up_2`,
each scheduling `next_followup_date` three days after the call's current
time; a fourth call yields position 4, status `dead`, and clears
`next_followup_date`. -/
theorem C4_sequence_progression (p : Prospect) (t1 t2 t3 t4 : ℤ)
    (h : p.sequence_position = 0) :
    ((advance_sequence t1 p).1.sequence_position = 1 ∧
     (advance_sequence t1 p).1.status = "sent" ∧
     (advance_sequence t1 p).1.next_followup_date = some (t1 + threeDays)) ∧
    ((advance_sequence t2 (advance_sequence t1 p).1).1.sequence_position = 2 ∧
     (advance_sequence t2 (advance_sequence t1 p).1).1.status = "follow_up_1" ∧
     (advance_sequence t2 (advance_sequence t1 p).1).1.next_followup_date =
       some (t2 + threeDays)) ∧
    ((advance_sequence t3 (advance_sequence t2 (advance_sequence t1 p).1).1).1.sequence_position = 3 ∧
     (advance_sequence t3 (advance_sequence t2 (advance_sequence t1 p).1).1).1.status = "follow_up_2" ∧
     (advance_sequence t3 (advance_sequence t2 (advance_sequence t1 p).1).1).1.next_followup_date =
       some (t3 + threeDays)) ∧
    ((advance_sequence t4 (advance_sequence t3 (advance_sequence t2 (advance_sequence t1 p).1).1).1).1.sequence_position = 4 ∧
     (advance_sequence t4 (advance_sequence t3 (advance_sequence t2 (advance_sequence t1 p).1).1).1).1.status = "dead" ∧
     (advance_sequence t4 (advance_sequence t3 (advance_sequence t2 (advance_sequence t1 p).1).1).1).1.next_followup_date =
       none) := by
  have e1 : (advance_sequence t1 p).1 =
      { p with sequence_position := 1, status := "sent",
               next_followup_date := some (t1 + threeDays) } := by
    unfold advance_sequence
    rw [if_pos (by omega), h]
    norm_num [status_map]
  have e2 : (advance_sequence t2 (advance_sequence t1 p).1).1 =
      { p with sequence_position := 2, status := "follow_up_1",
               next_followup_date := some (t2 + threeDays) } := by
    rw [e1]
    unfold advance_sequence
    norm_num [status_map]
  have e3 : (advance_sequence t3 (advance_sequence t2 (advance_sequence t1 p).1).1).1 =
      { p with sequence_position := 3, status := "follow_up_2",
               next_followup_date := some (t3 + threeDays) } := by
    rw [e2]
    unfold advance_sequence
    norm_num [status_map]
  have e4 : (advance_sequence t4 (advance_sequence t3 (advance_sequence t2 (advance_sequence t1 p).1).1).1).1 =
      { p with sequence_position := 4, status := "dead",
               next_followup_date := none } := by
    rw [e3]
    unfold advance_sequence
    norm_num [status_map]
  rw [e4, e3, e2, e1]
  simp

/-- C4 witness: the progression theorem at the default prospect (position 0)
with all four calls at time 0. -/
theorem C4_witness :
    ((advance_sequence 0 ({} : Prospect)).1.sequence_position = 1 ∧
     (advance_sequence 0 ({} : Prospect)).1.status = "sent" ∧
     (advance_sequence 0 ({} : Prospect)).1.next_followup_date = some (0 + threeDays)) ∧
    ((advance_sequence 0 (advance_sequence 0 ({} : Prospect)).1).1.sequence_position = 2 ∧
     (advance_sequence 0 (advance_sequence 0 ({} : Prospect)).1).1.status = "follow_up_1" ∧
     (advance_sequence 0 (advance_sequence 0 ({} : Prospect)).1).1.next_followup_date =
       some (0 + threeDays)) ∧
    ((advance_sequence 0 (advance_sequence 0 (advance_sequence 0 ({} : Prospect)).1).1).1.sequence_position = 3 ∧
     (advance_sequence 0 (advance_sequence 0 (advance_sequence 0 ({} : Prospect)).1).1).1.status = "follow_up_2" ∧
     (advance_sequence 0 (advance_sequence 0 (advance_sequence 0 ({} : Prospect)).1).1).1.next_followup_date =
       some (0 + threeDays)) ∧
    ((advance_sequence 0 (advance_sequence 0 (advance_sequence 0 (advance_sequence 0 ({} : Prospect)).1).1).1).1.sequence_position = 4 ∧
     (advance_sequence 0 (advance_sequence 0 (advance_sequence 0 (advance_sequence 0 ({} : Prospect)).1).1).1).1.status = "dead" ∧
     (advance_sequence 0 (advance_sequence 0 (advance_sequence 0 (advance_sequence 0 ({} : Prospect)).1).1).1).1.next_followup_date =
       none) :=
  C4_sequence_progression {} 0 0 0 0 rfl

/-! ## Claim C6 -/

/-- One step of the `deduplicate_prospect_list` loop when the head index is
already marked as processed: it is skipped. -/
theorem dedupAux_skip (ps : List ProspectData) (i : ℕ) (rest processed : List ℕ)
    (hm : i ∈ processed) :
    dedupAux ps (i :: rest) processed = dedupAux ps rest processed := by
  simp only [dedupAux, if_pos hm]

/-- One step of the loop when the head index has no duplicate among the
remaining unprocessed indices: the prospect passes through unchanged. -/
theorem dedupAux_no_dups (ps : List ProspectData) (i : ℕ) (rest processed : List ℕ)
    (hm : i ∉ processed)
    (hnone : ∀ j ∈ rest, j ∉ processed →
      ¬(similarity_threshold < calculate_similarity (getP ps i) (getP ps j))) :
    dedupAux ps (i :: rest) processed =
      (getP ps i :: (dedupAux ps rest processed).1, (dedupAux ps rest processed).2) := by
  simp only [dedupAux, if_neg hm]
  have hfil : rest.filter (fun j =>
      decide (j ∉ processed) &&
      decide (calculate_similarity (getP ps i) (getP ps j) > similarity_threshold)) = [] := by
    rw [List.filter_eq_nil_iff]
    intro j hj
    by_cases hjp : j ∈ processed
    · simp [hjp]
    · simp [hjp, hnone j hj hjp]
  rw [hfil]
  rfl

/-- One step of the loop when the head index has exactly one duplicate `j0`
among the remaining unprocessed indices: a group of total size 2 is formed,
the best of the two is emitted, and `j0` is marked processed. -/
theorem dedupAux_single_dup (ps : List ProspectData) (i j0 : ℕ)
    (rest processed : List ℕ) (hm : i ∉ processed)
    (hfil : rest.filter (fun j =>
      decide (j ∉ processed) &&
      decide (calculate_similarity (getP ps i) (getP ps j) > similarity_threshold)) = [j0]) :
    dedupAux ps (i :: rest) processed =
      (select_best_prospect [getP ps i, getP ps j0] ::
        (dedupAux ps rest (processed ++ [j0])).1,
       ({ master_index := i, master := getP ps i,
          duplicates := [({ index := j0, prospect := getP ps j0, similarity := calculate_similarity (getP ps i) (getP ps j0) } : DuplicateEntry)],
          total_count := 2 } : DuplicateGroup) ::
        (dedupAux ps rest (processed ++ [j0])).2) := by
  simp only [dedupAux, if_neg hm]
  rw [hfil]
  rfl

/-- Phase 3 of the single-duplicate-pair analysis: past `j0`, every index
passes through (all later pairs are below the threshold), so the suffix
starting at `k > j0` contributes exactly its own indices and no groups. -/
theorem dedup_phase3 (ps : List ProspectData) (i0 j0 : ℕ) (hij : i0 < j0)
    (hothers : ∀ i j : ℕ, i < j → j < ps.length → ¬(i = i0 ∧ j = j0) →
      ¬(similarity_threshold < calculate_similarity (getP ps i) (getP ps j))) :
    ∀ c k : ℕ, ps.length - k = c → j0 < k →
      (dedupAux ps (List.range' k c) [j0]).1.length = c ∧
      (dedupAux ps (List.range' k c) [j0]).2 = [] := by
  intro c
  induction c with
  | zero => intro k _ _; exact ⟨rfl, rfl⟩
  | succ m ih =>
    intro k hk hjk
    have hkn : k < ps.length := by omega
    rw [List.range'_succ k m 1]
    rw [dedupAux_no_dups ps k (List.range' (k + 1) m) [j0]
      (by simp; omega)
      (by
        intro j hj _
        have hjr := List.mem_range'_1.1 hj
        exact hothers k j (by omega) (by omega) (by omega))]
    obtain ⟨ih1, ih2⟩ := ih (k + 1) (by omega) (by omega)
    exact ⟨by simp [ih1], ih2⟩

/-- Phase 2: between `i0` (exclusive) and `j0` (inclusive), every index
except the already-processed `j0` passes through; the segment starting at
`i0 < k ≤ j0` contributes one prospect fewer than its length and no
groups. -/
theorem dedup_phase2 (ps : List ProspectData) (i0 j0 : ℕ) (hij : i0 < j0)
    (hjn : j0 < ps.length)
    (hothers : ∀ i j : ℕ, i < j → j < ps.length → ¬(i = i0 ∧ j = j0) →
      ¬(similarity_threshold < calculate_similarity (getP ps i) (getP ps j))) :
    ∀ c k : ℕ, ps.length - k = c → i0 < k → k ≤ j0 →
      (dedupAux ps (List.range' k c) [j0]).1.length = c - 1 ∧
      (dedupAux ps (List.range' k c) [j0]).2 = [] := by
  intro c
  induction c with
  | zero => intro k hk h1 h2; omega
  | succ m ih =>
    intro k hk h1 h2
    rw [List.range'_succ k m 1]
    by_cases hkj : k = j0
    · rw [dedupAux_skip ps k (List.range' (k + 1) m) [j0] (by simp [hkj])]
      obtain ⟨h3a, h3b⟩ := dedup_phase3 ps i0 j0 hij hothers m (k + 1) (by omega) (by omega)
      exact ⟨by simp [h3a], h3b⟩
    · rw [dedupAux_no_dups ps k (List.range' (k + 1) m) [j0]
        (by simp; omega)
        (by
          intro j hj hjp
          have hjr := List.mem_range'_1.1 hj
          have hjj0 : j ≠ j0 := by simpa using hjp
          exact hothers k j (by omega) (by omega) (by omega))]
      obtain ⟨ih1, ih2⟩ := ih (k + 1) (by omega) (by omega) (by omega)
      have hm1 : 1 ≤ m := by omega
      exact ⟨by simp [ih1]; omega, ih2⟩

/-- The duplicate filter at index `i0` selects exactly `j0`: every other
later index is below the threshold, and `j0` itself is above it. -/
theorem dedup_filter_at_master (ps : List ProspectData) (i0 j0 : ℕ)
    (hij : i0 < j0) (hjn : j0 < ps.length)
    (hsim : similarity_threshold < calculate_similarity (getP ps i0) (getP ps j0))
    (hothers : ∀ i j : ℕ, i < j → j < ps.length → ¬(i = i0 ∧ j = j0) →
      ¬(similarity_threshold < calculate_similarity (getP ps i) (getP ps j))) :
    (List.range' (i0 + 1) (ps.length - (i0 + 1))).filter (fun j =>
      decide (j ∉ ([] : List ℕ)) &&
      decide (calculate_similarity (getP ps i0) (getP ps j) > similarity_threshold)) = [j0] := by
  have hsplit : List.range' (i0 + 1) (ps.length - (i0 + 1)) =
      List.range' (i0 + 1) (j0 - (i0 + 1)) ++
        List.range' j0 (ps.length - j0) := by
    have h := List.range'_append (i0 + 1) (j0 - (i0 + 1)) (ps.length - j0) 1
    rw [show i0 + 1 + 1 * (j0 - (i0 + 1)) = j0 by omega] at h
    rw [show ps.length - j0 + (j0 - (i0 + 1)) = ps.length - (i0 + 1) by omega] at h
    exact h.symm
  rw [hsplit, List.filter_append]
  have hleft : (List.range' (i0 + 1) (j0 - (i0 + 1))).filter (fun j =>
      decide (j ∉ ([] : List ℕ)) &&
      decide (calculate_similarity (getP ps i0) (getP ps j) > similarity_threshold)) = [] := by
    rw [List.filter_eq_nil_iff]
    intro j hj
    have hjr := List.mem_range'_1.1 hj
    simp [hothers i0 j (by omega) (by omega) (by omega)]
  have hright : (List.range' j0 (ps.length - j0)).filter (fun j =>
      decide (j ∉ ([] : List ℕ)) &&
      decide (calculate_similarity (getP ps i0) (getP ps j) > similarity_threshold)) = [j0] := by
    rw [show ps.length - j0 = (ps.length - j0 - 1) + 1 by omega, List.range'_succ j0 _ 1]
    rw [List.filter_cons_of_pos (by simp [hsim])]
    rw [List.filter_eq_nil_iff.2 ?_]
    · intro j hj
      have hjr := List.mem_range'_1.1 hj
      simp [hothers i0 j (by omega) (by omega) (by omega)]
  rw [hleft, hright]
  rfl

/-- Phase 1: before `i0`, every index passes through; at `i0` the single
group (with `j0`) is formed; the segment starting at `k ≤ i0` contributes
its length minus one prospects and exactly the one group of total size 2. -/
theorem dedup_phase1 (ps : List ProspectData) (i0 j0 : ℕ) (hij : i0 < j0)
    (hjn : j0 < ps.length)
    (hsim : similarity_threshold < calculate_similarity (getP ps i0) (getP ps j0))
    (hothers : ∀ i j : ℕ, i < j → j < ps.length → ¬(i = i0 ∧ j = j0) →
      ¬(similarity_threshold < calculate_similarity (getP ps i) (getP ps j))) :
    ∀ c k : ℕ, ps.length - k = c → k ≤ i0 →
      (dedupAux ps (List.range' k c) []).1.length = c - 1 ∧
      (dedupAux ps (List.range' k c) []).2.length = 1 ∧
      ∀ g ∈ (dedupAux ps (List.range' k c) []).2, g.total_count = 2 := by
  intro c
  induction c with
  | zero => intro k hk h1; omega
  | succ m ih =>
    intro k hk h1
    rw [List.range'_succ k m 1]
    by_cases hki : k = i0
    · subst hki
      have hfil := dedup_filter_at_master ps k j0 hij hjn hsim hothers
      rw [show ps.length - (k + 1) = m by omega] at hfil
      rw [dedupAux_single_dup ps k j0 (List.range' (k + 1) m) [] (by simp) hfil]
      have hnil : ([] : List ℕ) ++ [j0] = [j0] := rfl
      rw [hnil]
      obtain ⟨h2a, h2b⟩ := dedup_phase2 ps k j0 hij hjn hothers m (k + 1)
        (by omega) (by omega) (by omega)
      refine ⟨by simp [h2a]; omega, by simp [h2b], ?_⟩
      intro g hg
      rw [h2b] at hg
      simp at hg
      rw [hg]
    · rw [dedupAux_no_dups ps k (List.range' (k + 1) m) []
        (by simp)
        (by
          intro j hj _
          have hjr := List.mem_range'_1.1 hj
          exact hothers k j (by omega) (by omega) (by omega))]
      obtain ⟨ih1, ih2, ih3⟩ := ih (k + 1) (by omega) (by omega)
      have hm1 : 1 ≤ m := by omega
      exact ⟨by simp [ih1]; omega, by simpa using ih2, by simpa using ih3⟩

/-- C6, counterexample: two identical records carrying only a company name
have computed similarity `(0.3·1)/1.5 = 0.2`, below the `0.85` threshold, so
`deduplicate_prospect_list` forms no group and removes nothing — an
exact-duplicate pair alone does not guarantee the claimed collapse. -/
theorem C6_counterexample :
    getP [{ company_name := "x" }, { company_name := "x" }] 0 =
      getP [{ company_name := "x" }, { company_name := "x" }] 1 ∧
    (deduplicate_prospect_list
        [{ company_name := "x" }, { company_name := "x" }]).unique_count ≠
      (deduplicate_prospect_list
        [{ company_name := "x" }, { company_name := "x" }]).original_count - 1 ∧
    (deduplicate_prospect_list
        [{ company_name := "x" }, { company_name := "x" }]).duplicate_groups.length ≠ 1 := by
  decide

/-- C6, amended: for every list of prospect records containing exactly one
exact-duplicate pair (two identical records at positions `i0 < j0`) whose
computed similarity exceeds the `0.85` threshold, and no other pair whose
similarity exceeds the threshold, `deduplicate_prospect_list` returns
`unique_count = original_count - 1` and exactly one duplicate group, of
total size 2. -/
theorem C6_amended_single_pair (ps : List ProspectData) (i0 j0 : ℕ)
    (hij : i0 < j0) (hjn : j0 < ps.length)
    (_heq : getP ps i0 = getP ps j0)
    (hsim : similarity_threshold < calculate_similarity (getP ps i0) (getP ps j0))
    (hothers : ∀ i j : ℕ, i < j → j < ps.length → ¬(i = i0 ∧ j = j0) →
      ¬(similarity_threshold < calculate_similarity (getP ps i) (getP ps j))) :
    (deduplicate_prospect_list ps).unique_count = (deduplicate_prospect_list ps).original_count - 1 ∧
    (deduplicate_prospect_list ps).duplicate_groups.length = 1 ∧
    ∀ g ∈ (deduplicate_prospect_list ps).duplicate_groups, g.total_count = 2 := by
  obtain ⟨h1, h2, h3⟩ := dedup_phase1 ps i0 j0 hij hjn hsim hothers ps.length 0
    (by omega) (by omega)
  unfold deduplicate_prospect_list
  rw [List.range_eq_range' ps.length]
  exact ⟨h1, h2, h3⟩

/-- C6 witness: the amended theorem on a two-element list of identical
fully-populated records (computed similarity `1 > 0.85`). -/
theorem C6_witness :
    (deduplicate_prospect_list
        [{ company_name := "x", email_address := "a@b.c", phone_number := "123",
           website := "w.cz", location := "praha", ico := "1" },
         { company_name := "x", email_address := "a@b.c", phone_number := "123",
           website := "w.cz", location := "praha", ico := "1" }]).unique_count =
      (deduplicate_prospect_list
        [{ company_name := "x", email_address := "a@b.c", phone_number := "123",
           website := "w.cz", location := "praha", ico := "1" },
         { company_name := "x", email_address := "a@b.c", phone_number := "123",
           website := "w.cz", location := "praha", ico := "1" }]).original_count - 1 ∧
    (deduplicate_prospect_list
        [{ company_name := "x", email_address := "a@b.c", phone_number := "123",
           website := "w.cz", location := "praha", ico := "1" },
         { company_name := "x", email_address := "a@b.c", phone_number := "123",
           website := "w.cz", location := "praha", ico := "1" }]).duplicate_groups.length = 1 ∧
    ∀ g ∈ (deduplicate_prospect_list
        [{ company_name := "x", email_address := "a@b.c", phone_number := "123",
           website := "w.cz", location := "praha", ico := "1" },
         { company_name := "x", email_address := "a@b.c", phone_number := "123",
           website := "w.cz", location := "praha", ico := "1" }]).duplicate_groups,
      g.total_count = 2 :=
  C6_amended_single_pair _ 0 1 (by decide) (by decide) rfl (by decide)
    (by
      intro i j hij hjn hne
      simp only [List.length_cons, List.length_nil] at hjn
      exact absurd ⟨by omega, by omega⟩ hne)

/-! ## Claim C7 -/

/-- C7, counterexample: `_calculate_string_similarity` returns `0` when
either argument is the empty string, so the self-similarity of `""` is `0`,
not `1`, refuting the unrestricted claim. -/
theorem C7_counterexample : calculate_string_similarity "" "" ≠ 1 := by
  decide

/-- C7, amended: for every non-empty string `s`, the string similarity of
`s` with itself equals `1` (both normalizations coincide, so the
exact-match branch fires). -/
theorem C7_amended_self_similarity (s : String) (h : s ≠ "") :
    calculate_string_similarity s s = 1 := by
  unfold calculate_string_similarity
  rw [if_neg (by simp [h]), if_pos rfl]

/-- C7 witness: the amended self-similarity theorem at the concrete
non-empty string `"abc"`. -/
theorem C7_witness : calculate_string_similarity "abc" "abc" = 1 :=
  C7_amended_self_similarity "abc" (by decide)

/-! ## Claim C8 -/

/-- Email similarity is symmetric: every branch of
`_calculate_email_similarity` tests a symmetric condition. -/
theorem email_similarity_symm (e1 e2 : String) :
    calculate_email_similarity e1 e2 = calculate_email_similarity e2 e1 := by
  unfold calculate_email_similarity
  by_cases h0 : e1 = "" ∨ e2 = ""
  · rw [if_pos h0, if_pos (Or.symm h0)]
  · have h0' : ¬(e2 = "" ∨ e1 = "") := fun hh => h0 (Or.symm hh)
    rw [if_neg h0, if_neg h0']
    by_cases he : pyLower e1 = pyLower e2
    · rw [if_pos he, if_pos he.symm]
    · have he' : ¬(pyLower e2 = pyLower e1) := fun hh => he hh.symm
      rw [if_neg he, if_neg he']
      apply if_congr _ rfl rfl
      constructor <;> rintro ⟨a, b, c⟩ <;> exact ⟨b, a, c.symm⟩

/-- Phone similarity is symmetric: equality, the two-sided substring test
and the length bounds are all symmetric. -/
theorem phone_similarity_symm (p1 p2 : String) :
    calculate_phone_similarity p1 p2 = calculate_phone_similarity p2 p1 := by
  unfold calculate_phone_similarity
  by_cases h0 : p1 = "" ∨ p2 = ""
  · rw [if_pos h0, if_pos (Or.symm h0)]
  · have h0' : ¬(p2 = "" ∨ p1 = "") := fun hh => h0 (Or.symm hh)
    rw [if_neg h0, if_neg h0']
    by_cases he : normalize_phone p1 = normalize_phone p2
    · rw [if_pos he, if_pos he.symm]
    · have he' : ¬(normalize_phone p2 = normalize_phone p1) := fun hh => he hh.symm
      rw [if_neg he, if_neg he']
      apply if_congr _ rfl rfl
      constructor <;> rintro ⟨a, b, c⟩ <;> exact ⟨b, a, Or.symm c⟩

/-- Website similarity is symmetric: URL-normalized equality and domain
equality are symmetric tests. -/
theorem website_similarity_symm (w1 w2 : String) :
    calculate_website_similarity w1 w2 = calculate_website_similarity w2 w1 := by
  unfold calculate_website_similarity
  by_cases h0 : w1 = "" ∨ w2 = ""
  · rw [if_pos h0, if_pos (Or.symm h0)]
  · have h0' : ¬(w2 = "" ∨ w1 = "") := fun hh => h0 (Or.symm hh)
    rw [if_neg h0, if_neg h0']
    by_cases he : normalize_url w1 = normalize_url w2
    · rw [if_pos he, if_pos he.symm]
    · have he' : ¬(normalize_url w2 = normalize_url w1) := fun hh => he hh.symm
      rw [if_neg he, if_neg he']
      apply if_congr _ rfl rfl
      constructor <;> intro h <;> exact h.symm

/-- The exact-match registry-ID similarity term of `_calculate_similarity`
is symmetric. -/
theorem ico_exact_match_symm (s1 s2 : String) :
    (if s1 ≠ "" ∧ s2 ≠ "" ∧ s1 = s2 then (1 : ℚ) else 0) =
      (if s2 ≠ "" ∧ s1 ≠ "" ∧ s2 = s1 then (1 : ℚ) else 0) := by
  apply if_congr _ rfl rfl
  constructor <;> rintro ⟨a, b, c⟩ <;> exact ⟨b, a, c.symm⟩

/-- C8, counterexample: `difflib.SequenceMatcher.ratio` is not symmetric —
`ratio("aba", "babba") = 3/4` but `ratio("babba", "aba") = 1/2` — so two
records differing only in those company names get overall similarities
`(0.3·3/4)/1.5 = 3/20` one way and `(0.3·1/2)/1.5 = 1/10` the other,
refuting unconditional symmetry of `_calculate_similarity`. -/
theorem C8_counterexample :
    calculate_similarity { company_name := "aba" } { company_name := "babba" } ≠
      calculate_similarity { company_name := "babba" } { company_name := "aba" } := by
  decide

/-- C8, amended: `overall_similarity` is symmetric in every component except
the sequence-alignment string similarity of the two string-typed fields
(company name and address/location); whenever the string similarity is
symmetric on those two pairs — in particular whenever the alignment ratio
is — the overall similarity is symmetric. -/
theorem C8_amended_symmetry (p1 p2 : ProspectData)
    (hname : calculate_string_similarity p1.company_name p2.company_name =
      calculate_string_similarity p2.company_name p1.company_name)
    (hloc : calculate_string_similarity p1.location p2.location =
      calculate_string_similarity p2.location p1.location) :
    calculate_similarity p1 p2 = calculate_similarity p2 p1 := by
  unfold calculate_similarity
  rw [email_similarity_symm p1.email_address p2.email_address,
    phone_similarity_symm p1.phone_number p2.phone_number,
    website_similarity_symm p1.website p2.website, hname, hloc,
    ico_exact_match_symm p1.ico p2.ico]

/-- C8 witness: the conditional symmetry theorem at two concrete records
whose name pair has a symmetric ratio (no common characters, ratio `0` both
ways) and empty locations. -/
theorem C8_witness :
    calculate_similarity { company_name := "x" } { company_name := "y" } =
      calculate_similarity { company_name := "y" } { company_name := "x" } :=
  C8_amended_symmetry { company_name := "x" } { company_name := "y" }
    (by decide) (by decide)

/-! ## Claim C9 -/

/-- C9: both enrichment operations preserve the invariant that
`ico_enriched` implies `ico_enriched_at` is set and `ico` is non-empty:
whenever they mark a record enriched they simultaneously stamp
`ico_enriched_at` and have already insisted on a non-empty `ico` (the
early-return guard), and on every other path the record is unchanged. -/
theorem C9_enrichment_invariant :
    (∀ (d : EnrichData) (fetched : Option AresData) (now : ℤ),
        enrich_data_inv d → enrich_data_inv (enrich_prospect_data fetched now d)) ∧
    (∀ (p : Prospect) (fetched : Option AresData) (now : ℤ),
        prospect_ico_inv p → prospect_ico_inv ((enrich_from_ico fetched now p).1)) := by
  constructor
  · intro d fetched now hd
    by_cases hico : d.ico = ""
    · unfold enrich_prospect_data
      rw [if_pos hico]
      exact hd
    · cases fetched with
      | none =>
        unfold enrich_prospect_data
        rw [if_neg hico]
        exact hd
      | some ares =>
        intro _
        constructor
        · show (enrich_prospect_data (some ares) now d).ico_enriched_at.isSome = true
          unfold enrich_prospect_data
          rw [if_neg hico]
          rfl
        · show (enrich_prospect_data (some ares) now d).ico ≠ ""
          unfold enrich_prospect_data
          rw [if_neg hico]
          dsimp only
          cases ares.ceo_name with
          | none => exact hico
          | some ceo =>
            dsimp only
            split_ifs <;> exact hico
  · intro p fetched now hp
    unfold enrich_from_ico
    by_cases hico : p.ico = ""
    · rw [if_pos hico]
      exact hp
    · rw [if_neg hico]
      by_cases hen :
          (enrich_prospect_data fetched now
            { ico := p.ico, company_name := p.company_name, industry := p.industry,
              address_street := p.address_street, address_city := p.address_city,
              address_state := p.address_state,
              address_postal_code := p.address_postal_code,
              address_country := p.address_country }).ico_enriched = false
      · rw [if_pos hen]
        exact hp
      · rw [if_neg hen]
        exact fun _ => ⟨rfl, hico⟩

/-- C9 witness: the invariant-preservation theorem at a concrete record with
a non-empty ICO and a successful (empty-payload) registry fetch. -/
theorem C9_witness :
    enrich_data_inv (enrich_prospect_data (some {}) 0 { ico := "25596641" }) ∧
    prospect_ico_inv ((enrich_from_ico (some {}) 0 { ico := "25596641" }).1) :=
  ⟨C9_enrichment_invariant.1 { ico := "25596641" } (some {}) 0 (by intro h; cases h),
   C9_enrichment_invariant.2 { ico := "25596641" } (some {}) 0 (by intro h; cases h)⟩

/-! ## Claim C10 -/

/-- C10: calling `advance_sequence` on a prospect whose `sequence_position`
is already `4` is a no-op — the entire state is unchanged and no `save()`
is performed (the `Bool` component is `false`). -/
theorem C10_advance_at_four_noop (p : Prospect) (now : ℤ)
    (h : p.sequence_position = 4) : advance_sequence now p = (p, false) := by
  unfold advance_sequence
  rw [if_neg (by omega)]

/-- C10 witness: the no-op theorem applied to a concrete prospect at
position 4. -/
theorem C10_witness :
    advance_sequence 0 { sequence_position := 4 } = ({ sequence_position := 4 }, false) :=
  C10_advance_at_four_noop { sequence_position := 4 } 0 rfl

end NextGenCRM
